import Mathlib

/-!
Verification development for the gaze-scribe-canvas repository.

The repository is a browser eye-tracking research tool.  This file gives a
shallow embedding of the pure computational core that the verified claims
refer to:

* `src/services/wordTrackingService.ts` — per-word reading statistics
  (`trackGazeOnWord`, `getReadingSequence`, `resetReadingData`, `reset`).
  All arithmetic there is on integers/plain numbers, so it is modelled
  computably over `ℚ`/`ℤ`/`ℕ` and JavaScript `Map`s become insertion-ordered
  association lists (the JS map key `` `${word}_${index}` `` is injective in
  the pair `(word, index)`, so the key is modelled as that pair).
* `src/utils/calibrationUtils.ts` — statistics and calibration validation.
  JavaScript numbers are modelled as reals; the JS `Infinity` stored in
  `pointErrors` is modelled as `(⊤ : EReal)` (it never takes part in
  arithmetic in the source).
* the calibration point sequences of `src/components/CalibrationModal.tsx`
  and the variant modal implementations kept in the repository.
* `src/pages/Index.tsx` — session export (`getExportData`) and the analysis
  handler (`handleAnalyzeWithAI`), the latter as a pure state transition on
  the three React state cells it touches, parametrised by the outcome of the
  awaited network call.
* `src/components/HeatmapOverlay.tsx` — the heatmap intensity accumulator,
  its global maximum and the normalisation step.
-/

namespace GazeScribe

/-! ## Word tracking service (`src/services/wordTrackingService.ts`) -/

namespace WordTracking

/-- Bounding box of a rendered word (`interface WordBounds`). -/
structure WordBounds where
  word : String
  x : ℚ
  y : ℚ
  width : ℚ
  height : ℚ
  index : ℕ
deriving DecidableEq, Repr

/-- Per-word reading statistics (`interface WordReading`).  The source code
documents `frequency` as "how many separate time periods it was gazed at". -/
structure WordReading where
  word : String
  wordIndex : ℕ
  gazeTotalTime : ℤ
  gazePointCount : ℕ
  firstGazeTime : ℤ
  lastGazeTime : ℤ
  frequency : ℕ
deriving DecidableEq, Repr

/-- One entry of the reading-sequence log (`interface WordReadingEvent`). -/
structure WordReadingEvent where
  word : String
  wordIndex : ℕ
  timestamp : ℤ
deriving DecidableEq, Repr

/-- JavaScript `Map.get`, on an insertion-ordered association list. -/
def mapGet {α β : Type} [DecidableEq α] (k : α) (m : List (α × β)) : Option β :=
  (m.find? (fun kv => decide (kv.1 = k))).map (fun kv => kv.2)

/-- JavaScript `Map.set`: overwrite in place if the key is present, else
append (JS maps iterate in insertion order). -/
def mapSet {α β : Type} [DecidableEq α] (k : α) (v : β) (m : List (α × β)) :
    List (α × β) :=
  if m.any (fun kv => decide (kv.1 = k)) then
    m.map (fun kv => if kv.1 = k then (k, v) else kv)
  else m ++ [(k, v)]

/-- The mutable fields of `class WordTrackingService`. -/
structure ServiceState where
  wordBoundsMap : List (ℕ × WordBounds)
  wordReadings : List ((String × ℕ) × WordReading)
  wordReadingSequence : List WordReadingEvent
  lastGazedWordIndex : ℤ
  wordIndexToWord : List (ℕ × String)
deriving DecidableEq, Repr

/-- Field initialisers of `class WordTrackingService`
(`lastGazedWordIndex` starts at `-1`). -/
def initialState : ServiceState :=
  { wordBoundsMap := []
    wordReadings := []
    wordReadingSequence := []
    lastGazedWordIndex := -1
    wordIndexToWord := [] }

/-- `trackGazeOnWord(wordBounds, timestamp)` (lines 169–207 of the service):
create the reading on first sight with `frequency = 1`, bump
`gazePointCount` and `lastGazeTime`, increment `frequency` whenever the
previously current word index differs from this word and is not the `-1`
sentinel, record this word as current, and append to the sequence log. -/
def trackGazeOnWord (s : ServiceState) (wordBounds : WordBounds)
    (timestamp : ℤ) : ServiceState :=
  let wordKey : String × ℕ := (wordBounds.word, wordBounds.index)
  let fresh : WordReading :=
    { word := wordBounds.word
      wordIndex := wordBounds.index
      gazeTotalTime := 0
      gazePointCount := 0
      firstGazeTime := timestamp
      lastGazeTime := timestamp
      frequency := 1 }
  let readings0 :=
    if (mapGet wordKey s.wordReadings).isNone then
      mapSet wordKey fresh s.wordReadings
    else s.wordReadings
  let reading := (mapGet wordKey readings0).getD fresh
  let reading :=
    { reading with
        gazePointCount := reading.gazePointCount + 1
        lastGazeTime := timestamp }
  let reading :=
    if s.lastGazedWordIndex ≠ (wordBounds.index : ℤ) ∧
        s.lastGazedWordIndex ≠ -1 then
      { reading with frequency := reading.frequency + 1 }
    else reading
  { s with
      wordReadings := mapSet wordKey reading readings0
      lastGazedWordIndex := (wordBounds.index : ℤ)
      wordReadingSequence :=
        s.wordReadingSequence ++
          [{ word := wordBounds.word
             wordIndex := wordBounds.index
             timestamp := timestamp }] }

/-- The `filter` with a mutable `seen` set used by `getReadingSequence`. -/
def filterSeen (seen : List ℕ) : List WordReadingEvent → List WordReadingEvent
  | [] => []
  | e :: rest =>
    if e.wordIndex ∈ seen then filterSeen seen rest
    else e :: filterSeen (e.wordIndex :: seen) rest

/-- `getReadingSequence()` (lines 239–247): unique words of the sequence log
in first-read order. -/
def getReadingSequence (s : ServiceState) : List WordReadingEvent :=
  filterSeen [] s.wordReadingSequence

/-- `resetReadingData()` (lines 259–263): clears readings, sequence log and
the current-word index, keeps the word bounds. -/
def resetReadingData (s : ServiceState) : ServiceState :=
  { s with
      wordReadings := []
      wordReadingSequence := []
      lastGazedWordIndex := -1 }

/-- `reset()` (lines 268–274): clears every field including the bounds. -/
def reset (_s : ServiceState) : ServiceState :=
  { wordBoundsMap := []
    wordReadings := []
    wordReadingSequence := []
    lastGazedWordIndex := -1
    wordIndexToWord := [] }

/-- Specification-side description of a dwell-episode count.  Counts the
maximal runs equal to `t` in the stream of gazed word indices (an episode
starts at a sample whose word is `t` when the previous sample, if any, was a
different word). -/
def episodesAux (prev : Option ℕ) (t : ℕ) : List ℕ → ℕ
  | [] => 0
  | a :: rest =>
    (if a = t ∧ prev ≠ some t then 1 else 0) + episodesAux (some a) t rest

/-- Number of disjoint dwell episodes on word index `t` in a gaze stream. -/
def dwellEpisodes (l : List ℕ) (t : ℕ) : ℕ :=
  episodesAux none t l

/-- Specification-side first-occurrence deduplication: keep each event whose
`wordIndex` has not occurred earlier, preserving order. -/
def firstOccurrences : List WordReadingEvent → List WordReadingEvent
  | [] => []
  | e :: rest =>
    e :: firstOccurrences (rest.filter (fun x => decide (x.wordIndex ≠ e.wordIndex)))
termination_by l => l.length
decreasing_by
  simp_wf
  exact Nat.lt_succ_of_le (List.length_filter_le _ _)

end WordTracking

/-! ## Calibration point sequences

Four ordered `calibrationPoints` sequences exist across the repository
variants; each is embedded verbatim (coordinates are viewport percentages).
-/

namespace CalibrationUI

/-- A calibration target in percent coordinates (`interface CalibrationPoint`). -/
structure CalibrationPoint where
  x : ℚ
  y : ℚ
deriving DecidableEq, Repr

/-- The 17-point grid of `src/components/CalibrationModal.tsx` (lines 67–89),
parametrised by the dynamically computed corner offset. -/
def calibrationPoints17 (cornerOffset : CalibrationPoint) : List CalibrationPoint :=
  [ { x := cornerOffset.x, y := cornerOffset.y }
  , { x := 100 - cornerOffset.x, y := cornerOffset.y }
  , { x := cornerOffset.x, y := 100 - cornerOffset.y }
  , { x := 100 - cornerOffset.x, y := 100 - cornerOffset.y }
  , { x := 33.33, y := cornerOffset.y }
  , { x := 66.67, y := cornerOffset.y }
  , { x := cornerOffset.x, y := 33.33 }
  , { x := cornerOffset.x, y := 66.67 }
  , { x := 100 - cornerOffset.x, y := 33.33 }
  , { x := 100 - cornerOffset.x, y := 66.67 }
  , { x := 33.33, y := 100 - cornerOffset.y }
  , { x := 66.67, y := 100 - cornerOffset.y }
  , { x := 33.33, y := 33.33 }
  , { x := 66.67, y := 33.33 }
  , { x := 33.33, y := 66.67 }
  , { x := 66.67, y := 66.67 }
  , { x := 50, y := 50 } ]

/-- The 9-point sequence of the GazeCloud modal variant
(`src/unnamed/part_000`, first document, lines 19–29). -/
def calibrationPointsGazeCloud : List CalibrationPoint :=
  [ { x := 10, y := 10 }
  , { x := 90, y := 10 }
  , { x := 50, y := 50 }
  , { x := 10, y := 90 }
  , { x := 90, y := 90 }
  , { x := 50, y := 10 }
  , { x := 50, y := 90 }
  , { x := 10, y := 50 }
  , { x := 90, y := 50 } ]

/-- The 9-point sequence of the plain click-driven WebGazer modal variant
(`src/unnamed/part_001`, lines 17–27); identical coordinates and order to
the GazeCloud variant. -/
def calibrationPointsClick : List CalibrationPoint :=
  [ { x := 10, y := 10 }
  , { x := 90, y := 10 }
  , { x := 50, y := 50 }
  , { x := 10, y := 90 }
  , { x := 90, y := 90 }
  , { x := 50, y := 10 }
  , { x := 50, y := 90 }
  , { x := 10, y := 50 }
  , { x := 90, y := 50 } ]

/-- The 9-point sequence of the stabilization-based modal variant
(`src/unnamed/part_000`, second document, lines 233–243). -/
def calibrationPointsStabilization : List CalibrationPoint :=
  [ { x := 10, y := 10 }
  , { x := 90, y := 10 }
  , { x := 10, y := 90 }
  , { x := 90, y := 90 }
  , { x := 50, y := 10 }
  , { x := 10, y := 50 }
  , { x := 90, y := 50 }
  , { x := 50, y := 90 }
  , { x := 50, y := 50 } ]

/-- The viewport center target. -/
def centerPoint : CalibrationPoint := { x := 50, y := 50 }

end CalibrationUI

/-! ## Calibration statistics (`src/utils/calibrationUtils.ts`)

JavaScript numbers are modelled as `ℝ`.  The `Infinity` pushed into
`pointErrors` for a point with no samples is `(⊤ : EReal)`; finite errors are
coerced real numbers.  The source never does arithmetic on that `Infinity`:
the `return` inside `forEach` skips the `allErrors.push`, so every aggregate
is computed from the finite errors only.
-/

namespace CalibUtils

/-- A plain `{x, y}` coordinate object. -/
structure Point where
  x : ℝ
  y : ℝ

/-- `interface CalibrationPoint` (percent coordinates). -/
structure CalibrationPoint where
  x : ℝ
  y : ℝ

instance : Inhabited CalibrationPoint := ⟨⟨0, 0⟩⟩

/-- `interface GazeSample`. -/
structure GazeSample where
  x : ℝ
  y : ℝ
  timestamp : ℝ

/-- The `quality` union type of `CalibrationResult`. -/
inductive Quality where
  | good
  | acceptable
  | poor
deriving DecidableEq, Repr

/-- `interface CalibrationResult`.  `maxError` is `Math.max(...allErrors)`,
which is `-Infinity` on an empty spread, hence `EReal`. -/
structure CalibrationResult where
  meanError : ℝ
  maxError : EReal
  stdDev : ℝ
  quality : Quality
  pointErrors : List (ℕ × EReal)

/-- `calculateDistance(point1, point2)` (lines 23–30). -/
noncomputable def calculateDistance (point1 point2 : Point) : ℝ :=
  Real.sqrt ((point2.x - point1.x) ^ 2 + (point2.y - point1.y) ^ 2)

/-- `calculateMean(values)` (lines 35–38): `0` on the empty list, else
`reduce`-sum divided by length. -/
noncomputable def calculateMean (values : List ℝ) : ℝ :=
  if values.length = 0 then 0
  else values.foldl (fun sum val => sum + val) 0 / (values.length : ℝ)

/-- `calculateStdDev(values)` (lines 43–49): `0` on the empty list, else the
square root of the mean squared deviation from the mean. -/
noncomputable def calculateStdDev (values : List ℝ) : ℝ :=
  if values.length = 0 then 0
  else
    Real.sqrt
      (calculateMean (values.map (fun val => (val - calculateMean values) ^ 2)))

/-- `determineQuality(meanError)` (lines 54–58). -/
noncomputable def determineQuality (meanError : ℝ) : Quality :=
  if meanError < 50 then .good
  else if meanError < 100 then .acceptable
  else .poor

/-- The pixel-resolved target of a calibration point:
`(screenWidth * point.x / 100, screenHeight * point.y / 100)`. -/
noncomputable def targetOf (screenWidth screenHeight : ℝ)
    (point : CalibrationPoint) : Point :=
  { x := screenWidth * point.x / 100, y := screenHeight * point.y / 100 }

/-- Coordinate-wise mean gaze position of a sample list
(the `avgGazeX`/`avgGazeY` computation of lines 83–84). -/
noncomputable def avgOf (samples : List GazeSample) : Point :=
  { x := calculateMean (samples.map (fun s => s.x))
    y := calculateMean (samples.map (fun s => s.y)) }

/-- One iteration of the `calibrationPoints.forEach` body of
`calculateCalibrationMetrics` (lines 72–94): the accumulator carries the
`pointErrors` and `allErrors` arrays; a point whose sample list is empty
pushes `(index, Infinity)` onto `pointErrors` and returns early, so nothing
reaches `allErrors`. -/
noncomputable def pointStep (gazeSamples : List (List GazeSample))
    (screenWidth screenHeight : ℝ)
    (acc : List (ℕ × EReal) × List ℝ) (ip : ℕ × CalibrationPoint) :
    List (ℕ × EReal) × List ℝ :=
  let samples := gazeSamples.getD ip.1 []
  if samples.length = 0 then (acc.1 ++ [(ip.1, (⊤ : EReal))], acc.2)
  else
    let error := calculateDistance (targetOf screenWidth screenHeight ip.2)
      (avgOf samples)
    (acc.1 ++ [(ip.1, (error : EReal))], acc.2 ++ [error])

/-- `calculateCalibrationMetrics(calibrationPoints, gazeSamples, screenWidth,
screenHeight)` (lines 63–108). -/
noncomputable def calculateCalibrationMetrics
    (calibrationPoints : List CalibrationPoint)
    (gazeSamples : List (List GazeSample))
    (screenWidth screenHeight : ℝ) : CalibrationResult :=
  let pe := calibrationPoints.enum.foldl
    (pointStep gazeSamples screenWidth screenHeight) ([], [])
  let meanError := calculateMean pe.2
  { meanError := meanError
    maxError := pe.2.foldl (fun a b => max a ((b : ℝ) : EReal)) ⊥
    stdDev := calculateStdDev pe.2
    quality := determineQuality meanError
    pointErrors := pe.1 }

/-- `averageGazeSamples(samples)` (lines 113–119). -/
noncomputable def averageGazeSamples (samples : List GazeSample) : Point :=
  if samples.length = 0 then { x := 0, y := 0 }
  else
    { x := calculateMean (samples.map (fun s => s.x))
      y := calculateMean (samples.map (fun s => s.y)) }

/-- Closed form of the `pointErrors` entry produced for the point at `ip`. -/
noncomputable def pointErrorEntry (gazeSamples : List (List GazeSample))
    (screenWidth screenHeight : ℝ) (ip : ℕ × CalibrationPoint) : ℕ × EReal :=
  if (gazeSamples.getD ip.1 []).length = 0 then (ip.1, (⊤ : EReal))
  else
    (ip.1,
      ((calculateDistance (targetOf screenWidth screenHeight ip.2)
        (avgOf (gazeSamples.getD ip.1 []))) : EReal))

/-- Closed form of the `allErrors` contribution of the point at `ip`: `none`
for a point with no samples (it is skipped), `some error` otherwise. -/
noncomputable def finiteErrorOf (gazeSamples : List (List GazeSample))
    (screenWidth screenHeight : ℝ) (ip : ℕ × CalibrationPoint) : Option ℝ :=
  if (gazeSamples.getD ip.1 []).length = 0 then none
  else
    some (calculateDistance (targetOf screenWidth screenHeight ip.2)
      (avgOf (gazeSamples.getD ip.1 [])))

end CalibUtils

/-! ## Index page (`src/pages/Index.tsx`)

`getExportData` (lines 193–224) is a pure function of the recorded gaze
points, the calibration flag and the text-container bounds; the export
timestamp string is an opaque parameter.  `handleAnalyzeWithAI`
(lines 266–297) is modelled as the transition it performs on the three React
state cells it touches (`analysisResult`, `isAnalyzing`, `analysisError`),
parametrised by the outcome of the awaited `analyzeGazeData` call.
-/

namespace IndexPage

/-- `interface GazeData` (coordinates and a millisecond timestamp). -/
structure GazeData where
  x : ℚ
  y : ℚ
  timestamp : ℤ
deriving DecidableEq, Repr, Inhabited

/-- The `textContainerBounds` rectangle of the export metadata. -/
structure ContainerBounds where
  x : ℚ
  y : ℚ
  width : ℚ
  height : ℚ
deriving DecidableEq, Repr, Inhabited

/-- The `metadata` object of the export. -/
structure ExportMetadata where
  sessionDuration : ℤ
  totalGazePoints : ℕ
  calibrated : Bool
  exportTimestamp : String
  textContainerBounds : ContainerBounds
deriving DecidableEq, Repr

/-- `interface GazeDataExport` (metadata plus raw samples). -/
structure GazeDataExport where
  metadata : ExportMetadata
  rawGazeData : List GazeData
deriving DecidableEq, Repr

/-- `getExportData()`: `sessionDuration` is last-sample timestamp minus
first-sample timestamp when at least one point exists, else `0`;
`totalGazePoints` is the number of recorded points. -/
def getExportData (points : List GazeData) (isCalibrated : Bool)
    (bounds : ContainerBounds) (exportTimestamp : String) : GazeDataExport :=
  { metadata :=
      { sessionDuration :=
          if 0 < points.length then
            (points.getLastD default).timestamp - (points.headD default).timestamp
          else 0
        totalGazePoints := points.length
        calibrated := isCalibrated
        exportTimestamp := exportTimestamp
        textContainerBounds := bounds }
    rawGazeData := points }

/-- `interface AnalysisResult` of `src/services/geminiService.ts`. -/
structure AnalysisResult where
  summary : String
  readingPattern : String
  attentionAreas : String
  engagementMetrics : String
  recommendations : String
  rawAnalysis : String
deriving DecidableEq, Repr

/-- Outcome of the awaited `geminiService.analyzeGazeData` call: either a
result or a thrown error whose message the handler extracts. -/
inductive AnalysisOutcome where
  | success (result : AnalysisResult)
  | failure (message : String)
deriving DecidableEq, Repr

/-- The three state cells `handleAnalyzeWithAI` touches. -/
structure AnalysisState where
  analysisResult : Option AnalysisResult
  isAnalyzing : Bool
  analysisError : Option String
deriving DecidableEq, Repr

/-- `handleAnalyzeWithAI()` as a state transition: with no recorded points
the handler returns early (a toast only); otherwise it clears the error,
runs the request, stores the result on success, stores the error message on
failure (leaving `analysisResult` untouched), and the `finally` block always
returns `isAnalyzing` to `false`. -/
def handleAnalyzeWithAI (st : AnalysisState) (gazePointCount : ℕ)
    (outcome : AnalysisOutcome) : AnalysisState :=
  if gazePointCount = 0 then st
  else
    match outcome with
    | .success result =>
        { analysisResult := some result
          isAnalyzing := false
          analysisError := none }
    | .failure message =>
        { analysisResult := st.analysisResult
          isAnalyzing := false
          analysisError := some message }

end IndexPage

/-! ## Heatmap accumulator (`src/components/HeatmapOverlay.tsx`)

The effect body (lines 45–95) filters the gaze points to the container
bounds, then for each point loops `dx, dy` over `[-60, 60]`, and whenever
`sqrt(dx² + dy²) ≤ 60` adds `1 - distance/60` to the accumulator cell keyed
`(⌊relX + dx⌋, ⌊relY + dy⌋)` where `(relX, relY)` is the point relative to
the container.  `maxIntensity` is the maximum over the map entries (starting
from `0`), and each cell is normalised by it before colouring.  The map is
modelled as the total function `intensityMap` (absent keys ↦ `0`) together
with the finite key set `touchedCells`.
-/

namespace Heatmap

/-- The fixed splat radius (`const radius = 60`). -/
def radius : ℤ := 60

/-- A gaze point as consumed by the overlay. -/
structure HGaze where
  x : ℝ
  y : ℝ
  timestamp : ℝ

/-- The container rectangle from `getBoundingClientRect()`. -/
structure Rect where
  left : ℝ
  top : ℝ
  right : ℝ
  bottom : ℝ

/-- The containment filter of lines 34–41. -/
noncomputable def containerGazePoints (bounds : Rect) (gazePoints : List HGaze) :
    List HGaze :=
  gazePoints.filter (fun point =>
    decide (bounds.left ≤ point.x ∧ point.x ≤ bounds.right ∧
      bounds.top ≤ point.y ∧ point.y ≤ bounds.bottom))

/-- Total intensity one sample at relative position `rel` contributes to the
accumulator cell `cell`: the sum over all integer offsets within the splat
square of `1 - distance/radius`, restricted to offsets within the radius
whose floored key equals `cell`. -/
noncomputable def splatSum (rel : ℝ × ℝ) (cell : ℤ × ℤ) : ℝ :=
  ∑ dx ∈ Finset.Icc (-radius) radius, ∑ dy ∈ Finset.Icc (-radius) radius,
    if Real.sqrt ((dx : ℝ) ^ 2 + (dy : ℝ) ^ 2) ≤ (radius : ℝ) ∧
        ⌊rel.1 + (dx : ℝ)⌋ = cell.1 ∧ ⌊rel.2 + (dy : ℝ)⌋ = cell.2 then
      1 - Real.sqrt ((dx : ℝ) ^ 2 + (dy : ℝ) ^ 2) / (radius : ℝ)
    else 0

/-- The accumulated intensity map: contributions of all in-bounds samples,
added cell-wise (`intensityMap.set(key, current + intensity)`). -/
noncomputable def intensityMap (bounds : Rect) (gazePoints : List HGaze)
    (cell : ℤ × ℤ) : ℝ :=
  ((containerGazePoints bounds gazePoints).map (fun point =>
    splatSum (point.x - bounds.left, point.y - bounds.top) cell)).sum

/-- The set of keys present in the accumulator map: every floored cell hit
by an in-radius offset of an in-bounds sample. -/
noncomputable def touchedCells (bounds : Rect) (gazePoints : List HGaze) :
    Finset (ℤ × ℤ) :=
  (containerGazePoints bounds gazePoints).foldl (fun acc point =>
    acc ∪
      ((Finset.Icc (-radius) radius ×ˢ Finset.Icc (-radius) radius).filter
        (fun d =>
          Real.sqrt ((d.1 : ℝ) ^ 2 + (d.2 : ℝ) ^ 2) ≤ (radius : ℝ))).image
        (fun d =>
          (⌊point.x - bounds.left + (d.1 : ℝ)⌋,
            ⌊point.y - bounds.top + (d.2 : ℝ)⌋))) ∅

/-- `maxIntensity` (lines 72–75): the maximum accumulated value over the map
entries, starting from `0`. -/
noncomputable def maxIntensity (bounds : Rect) (gazePoints : List HGaze) : ℝ :=
  (touchedCells bounds gazePoints).fold max 0
    (fun cell => intensityMap bounds gazePoints cell)

/-- `normalizedIntensity = intensity / maxIntensity` (line 84). -/
noncomputable def normalizedIntensity (bounds : Rect) (gazePoints : List HGaze)
    (cell : ℤ × ℤ) : ℝ :=
  intensityMap bounds gazePoints cell / maxIntensity bounds gazePoints

end Heatmap

/-! ## Helper lemmas -/

namespace WordTracking

/-- The seen-set filter of `getReadingSequence` computes first-occurrence
deduplication of the events whose index is not yet seen. -/
theorem filterSeen_eq_firstOccurrences (l : List WordReadingEvent) :
    ∀ seen : List ℕ,
      filterSeen seen l =
        firstOccurrences (l.filter (fun e => decide (e.wordIndex ∉ seen))) := by
  induction l with
  | nil => intro seen; simp [filterSeen, firstOccurrences]
  | cons e rest ih =>
    intro seen
    by_cases h : e.wordIndex ∈ seen
    · have hf : (e :: rest).filter (fun x => decide (x.wordIndex ∉ seen)) =
          rest.filter (fun x => decide (x.wordIndex ∉ seen)) := by
        simp [List.filter_cons, h]
      simp only [filterSeen, if_pos h, hf]
      exact ih seen
    · have hf : (e :: rest).filter (fun x => decide (x.wordIndex ∉ seen)) =
          e :: rest.filter (fun x => decide (x.wordIndex ∉ seen)) := by
        simp [List.filter_cons, h]
      simp only [filterSeen, if_neg h, hf, firstOccurrences]
      rw [ih (e.wordIndex :: seen), List.filter_filter]
      congr 2
      apply List.filter_congr
      intro x _
      simp [List.mem_cons, not_or, and_comm]

end WordTracking

namespace CalibUtils

/-- Unrolling the `forEach` fold of `calculateCalibrationMetrics`: the first
accumulator component collects one `pointErrors` entry per enumerated point
and the second collects the finite errors of the points that have samples. -/
theorem foldl_pointStep (gs : List (List GazeSample)) (w h : ℝ) :
    ∀ (l : List (ℕ × CalibrationPoint)) (acc : List (ℕ × EReal) × List ℝ),
      l.foldl (pointStep gs w h) acc =
        (acc.1 ++ l.map (pointErrorEntry gs w h),
          acc.2 ++ l.filterMap (finiteErrorOf gs w h)) := by
  intro l
  induction l with
  | nil => intro acc; simp
  | cons ip rest ih =>
    intro acc
    rw [List.foldl_cons, ih]
    by_cases hs : (gs.getD ip.1 []).length = 0
    · have h1 : pointStep gs w h acc ip = (acc.1 ++ [(ip.1, (⊤ : EReal))], acc.2) := by
        simp only [pointStep]
        rw [if_pos hs]
      have h2 : pointErrorEntry gs w h ip = (ip.1, (⊤ : EReal)) := by
        simp only [pointErrorEntry]
        rw [if_pos hs]
      have h3 : finiteErrorOf gs w h ip = none := by
        simp only [finiteErrorOf]
        rw [if_pos hs]
      simp [h1, h2, h3, List.filterMap_cons]
    · have h1 : pointStep gs w h acc ip =
          (acc.1 ++
            [(ip.1,
              ((calculateDistance (targetOf w h ip.2) (avgOf (gs.getD ip.1 []))) : EReal))],
            acc.2 ++ [calculateDistance (targetOf w h ip.2) (avgOf (gs.getD ip.1 []))]) := by
        simp only [pointStep]
        rw [if_neg hs]
      have h2 : pointErrorEntry gs w h ip =
          (ip.1,
            ((calculateDistance (targetOf w h ip.2) (avgOf (gs.getD ip.1 []))) : EReal)) := by
        simp only [pointErrorEntry]
        rw [if_neg hs]
      have h3 : finiteErrorOf gs w h ip =
          some (calculateDistance (targetOf w h ip.2) (avgOf (gs.getD ip.1 []))) := by
        simp only [finiteErrorOf]
        rw [if_neg hs]
      simp [h1, h2, h3, List.filterMap_cons]

/-- The `pointErrors` field in closed form. -/
theorem pointErrors_eq (pts : List CalibrationPoint)
    (gs : List (List GazeSample)) (w h : ℝ) :
    (calculateCalibrationMetrics pts gs w h).pointErrors =
      pts.enum.map (pointErrorEntry gs w h) := by
  simp [calculateCalibrationMetrics, foldl_pointStep]

/-- The `meanError` field in closed form: the mean is taken over the finite
errors only (a point with no samples is skipped by the early `return`). -/
theorem meanError_eq (pts : List CalibrationPoint)
    (gs : List (List GazeSample)) (w h : ℝ) :
    (calculateCalibrationMetrics pts gs w h).meanError =
      calculateMean (pts.enum.filterMap (finiteErrorOf gs w h)) := by
  simp [calculateCalibrationMetrics, foldl_pointStep]

/-- The `quality` field in closed form. -/
theorem quality_eq (pts : List CalibrationPoint)
    (gs : List (List GazeSample)) (w h : ℝ) :
    (calculateCalibrationMetrics pts gs w h).quality =
      determineQuality
        (calculateMean (pts.enum.filterMap (finiteErrorOf gs w h))) := by
  simp [calculateCalibrationMetrics, foldl_pointStep]

/-- `quality` is `determineQuality` of the reported `meanError`. -/
theorem quality_eq_determine (pts : List CalibrationPoint)
    (gs : List (List GazeSample)) (w h : ℝ) :
    (calculateCalibrationMetrics pts gs w h).quality =
      determineQuality (calculateCalibrationMetrics pts gs w h).meanError := by
  rw [quality_eq, meanError_eq]

/-- Indexing the `pointErrors` list at a valid point index. -/
theorem pointErrors_getD (pts : List CalibrationPoint)
    (gs : List (List GazeSample)) (w h : ℝ) (i : ℕ) (hi : i < pts.length) :
    (calculateCalibrationMetrics pts gs w h).pointErrors.getD i (0, ⊥) =
      pointErrorEntry gs w h (i, pts.getD i default) := by
  rw [pointErrors_eq]
  rw [List.getD_eq_getElem _ _ (by simpa [List.enum_length] using hi)]
  rw [List.getElem_map, List.getElem_enum]
  congr 2
  rw [List.getD_eq_getElem _ _ hi]

/-- The mean of a one-element list is that element. -/
theorem calculateMean_singleton (a : ℝ) : calculateMean [a] = a := by
  simp [calculateMean]

/-- `determineQuality` classifies `good` exactly below 50. -/
theorem determineQuality_good_iff (m : ℝ) :
    determineQuality m = .good ↔ m < 50 := by
  unfold determineQuality
  split_ifs with h1 h2
  · exact ⟨fun _ => h1, fun _ => rfl⟩
  · exact ⟨fun hc => absurd hc (by decide), fun hc => absurd hc h1⟩
  · exact ⟨fun hc => absurd hc (by decide), fun hc => absurd hc h1⟩

/-- `determineQuality` classifies `acceptable` exactly on [50, 100). -/
theorem determineQuality_acceptable_iff (m : ℝ) :
    determineQuality m = .acceptable ↔ 50 ≤ m ∧ m < 100 := by
  unfold determineQuality
  split_ifs with h1 h2
  · exact ⟨fun hc => absurd hc (by decide), fun hc => absurd hc.1 (by linarith)⟩
  · exact ⟨fun _ => ⟨by linarith, h2⟩, fun _ => rfl⟩
  · exact ⟨fun hc => absurd hc (by decide), fun hc => absurd hc.2 h2⟩

/-- `determineQuality` classifies `poor` exactly from 100 up. -/
theorem determineQuality_poor_iff (m : ℝ) :
    determineQuality m = .poor ↔ 100 ≤ m := by
  unfold determineQuality
  split_ifs with h1 h2
  · exact ⟨fun hc => absurd hc (by decide), fun hc => absurd h1 (by linarith)⟩
  · exact ⟨fun hc => absurd hc (by decide), fun hc => absurd h2 (by linarith)⟩
  · exact ⟨fun _ => by linarith, fun _ => rfl⟩

end CalibUtils

namespace Heatmap

/-- Floor of a sum of two integer casts. -/
theorem floor_int_add (m k : ℤ) : ⌊(m : ℝ) + (k : ℝ)⌋ = m + k := by
  rw [show (m : ℝ) + (k : ℝ) = ((m + k : ℤ) : ℝ) by push_cast; ring,
    Int.floor_intCast]

/-- Closed form of `splatSum` for a sample at an integer-cast relative
position: the accumulator cell `cell` receives exactly the contribution of
the unique offset `(cell.1 - m, cell.2 - n)`, when that offset lies in the
splat square and within the radius. -/
theorem splatSum_intCast (m n : ℤ) (cell : ℤ × ℤ) :
    splatSum ((m : ℝ), (n : ℝ)) cell =
      if Real.sqrt (((cell.1 - m : ℤ) : ℝ) ^ 2 + ((cell.2 - n : ℤ) : ℝ) ^ 2) ≤ (radius : ℝ) ∧
          cell.1 - m ∈ Finset.Icc (-radius) radius ∧
          cell.2 - n ∈ Finset.Icc (-radius) radius then
        1 - Real.sqrt (((cell.1 - m : ℤ) : ℝ) ^ 2 + ((cell.2 - n : ℤ) : ℝ) ^ 2) / (radius : ℝ)
      else 0 := by
  have hfx : ∀ dx : ℤ, (⌊(m : ℝ) + (dx : ℝ)⌋ = cell.1) ↔ dx = cell.1 - m := by
    intro dx
    rw [floor_int_add]
    omega
  have hfy : ∀ dy : ℤ, (⌊(n : ℝ) + (dy : ℝ)⌋ = cell.2) ↔ dy = cell.2 - n := by
    intro dy
    rw [floor_int_add]
    omega
  have hpt : ∀ dx ∈ Finset.Icc (-radius) radius, ∀ dy ∈ Finset.Icc (-radius) radius,
      (if Real.sqrt ((dx : ℝ) ^ 2 + (dy : ℝ) ^ 2) ≤ (radius : ℝ) ∧
          ⌊(m : ℝ) + (dx : ℝ)⌋ = cell.1 ∧ ⌊(n : ℝ) + (dy : ℝ)⌋ = cell.2 then
        1 - Real.sqrt ((dx : ℝ) ^ 2 + (dy : ℝ) ^ 2) / (radius : ℝ)
      else 0) =
      (if dx = cell.1 - m then
        (if dy = cell.2 - n then
          (if Real.sqrt (((cell.1 - m : ℤ) : ℝ) ^ 2 + ((cell.2 - n : ℤ) : ℝ) ^ 2) ≤ (radius : ℝ) then
            1 - Real.sqrt (((cell.1 - m : ℤ) : ℝ) ^ 2 + ((cell.2 - n : ℤ) : ℝ) ^ 2) / (radius : ℝ)
          else 0)
        else 0)
      else 0) := by
    intro dx _ dy _
    by_cases hdx : dx = cell.1 - m
    · by_cases hdy : dy = cell.2 - n
      · subst hdx
        subst hdy
        simp only [if_pos rfl]
        have hfl1 : ⌊(m : ℝ) + ((cell.1 - m : ℤ) : ℝ)⌋ = cell.1 := by
          rw [floor_int_add]; omega
        have hfl2 : ⌊(n : ℝ) + ((cell.2 - n : ℤ) : ℝ)⌋ = cell.2 := by
          rw [floor_int_add]; omega
        simp [hfl1, hfl2]
      · have hc : ¬(Real.sqrt ((dx : ℝ) ^ 2 + (dy : ℝ) ^ 2) ≤ (radius : ℝ) ∧
            ⌊(m : ℝ) + (dx : ℝ)⌋ = cell.1 ∧ ⌊(n : ℝ) + (dy : ℝ)⌋ = cell.2) := by
          intro hcc
          exact hdy ((hfy dy).mp hcc.2.2)
        rw [if_neg hc, if_pos hdx, if_neg hdy]
    · have hc : ¬(Real.sqrt ((dx : ℝ) ^ 2 + (dy : ℝ) ^ 2) ≤ (radius : ℝ) ∧
          ⌊(m : ℝ) + (dx : ℝ)⌋ = cell.1 ∧ ⌊(n : ℝ) + (dy : ℝ)⌋ = cell.2) := by
        intro hcc
        exact hdx ((hfx dx).mp hcc.2.1)
      rw [if_neg hc, if_neg hdx]
  unfold splatSum
  rw [Finset.sum_congr rfl
    (fun dx hdx => Finset.sum_congr rfl (fun dy hdy => hpt dx hdx dy hdy))]
  have hinner : ∀ dx ∈ Finset.Icc (-radius) radius,
      (∑ dy ∈ Finset.Icc (-radius) radius,
        (if dx = cell.1 - m then
          (if dy = cell.2 - n then
            (if Real.sqrt (((cell.1 - m : ℤ) : ℝ) ^ 2 + ((cell.2 - n : ℤ) : ℝ) ^ 2) ≤ (radius : ℝ) then
              1 - Real.sqrt (((cell.1 - m : ℤ) : ℝ) ^ 2 + ((cell.2 - n : ℤ) : ℝ) ^ 2) / (radius : ℝ)
            else 0)
          else 0)
        else 0)) =
      (if dx = cell.1 - m then
        (if cell.2 - n ∈ Finset.Icc (-radius) radius then
          (if Real.sqrt (((cell.1 - m : ℤ) : ℝ) ^ 2 + ((cell.2 - n : ℤ) : ℝ) ^ 2) ≤ (radius : ℝ) then
            1 - Real.sqrt (((cell.1 - m : ℤ) : ℝ) ^ 2 + ((cell.2 - n : ℤ) : ℝ) ^ 2) / (radius : ℝ)
          else 0)
        else 0)
      else 0) := by
    intro dx _
    by_cases hdx : dx = cell.1 - m
    · simp only [if_pos hdx]
      exact Finset.sum_ite_eq' _ _ _
    · simp [hdx]
  rw [Finset.sum_congr rfl hinner]
  rw [Finset.sum_ite_eq' _ _ _]
  by_cases hm1 : cell.1 - m ∈ Finset.Icc (-radius) radius
  · by_cases hm2 : cell.2 - n ∈ Finset.Icc (-radius) radius
    · by_cases hm3 : Real.sqrt (((cell.1 - m : ℤ) : ℝ) ^ 2 + ((cell.2 - n : ℤ) : ℝ) ^ 2) ≤ (radius : ℝ)
      · simp [hm1, hm2, hm3]
      · simp [hm1, hm2, hm3]
    · simp [hm1, hm2]
  · by_cases hm2 : cell.2 - n ∈ Finset.Icc (-radius) radius
    · by_cases hm3 : Real.sqrt (((cell.1 - m : ℤ) : ℝ) ^ 2 + ((cell.2 - n : ℤ) : ℝ) ^ 2) ≤ (radius : ℝ)
      · simp [hm1, hm2, hm3]
      · simp [hm1, hm2, hm3]
    · simp [hm1, hm2]

/-- Offsets whose distance stays within the radius lie in the splat square. -/
theorem mem_of_sqrt_le (dx dy : ℤ)
    (h : Real.sqrt ((dx : ℝ) ^ 2 + (dy : ℝ) ^ 2) ≤ (radius : ℝ)) :
    dx ∈ Finset.Icc (-radius) radius ∧ dy ∈ Finset.Icc (-radius) radius := by
  have hs : (0 : ℝ) ≤ (dx : ℝ) ^ 2 + (dy : ℝ) ^ 2 := by positivity
  have hsq := Real.sq_sqrt hs
  have hnn := Real.sqrt_nonneg ((dx : ℝ) ^ 2 + (dy : ℝ) ^ 2)
  have hsum : (dx : ℝ) ^ 2 + (dy : ℝ) ^ 2 ≤ 3600 := by
    have hr : ((radius : ℤ) : ℝ) = 60 := by norm_num [radius]
    nlinarith [h, hsq, hnn]
  have hdx1 : (-60 : ℝ) ≤ (dx : ℝ) := by nlinarith
  have hdx2 : (dx : ℝ) ≤ 60 := by nlinarith
  have hdy1 : (-60 : ℝ) ≤ (dy : ℝ) := by nlinarith
  have hdy2 : (dy : ℝ) ≤ 60 := by nlinarith
  have hdx1Z : (-60 : ℤ) ≤ dx := by exact_mod_cast hdx1
  have hdx2Z : dx ≤ (60 : ℤ) := by exact_mod_cast hdx2
  have hdy1Z : (-60 : ℤ) ≤ dy := by exact_mod_cast hdy1
  have hdy2Z : dy ≤ (60 : ℤ) := by exact_mod_cast hdy2
  constructor <;> simp only [Finset.mem_Icc, radius] <;> omega

/-- A sample inside the container bounds survives the containment filter. -/
theorem containerGazePoints_singleton (bounds : Rect) (p : HGaze)
    (h1 : bounds.left ≤ p.x) (h2 : p.x ≤ bounds.right)
    (h3 : bounds.top ≤ p.y) (h4 : p.y ≤ bounds.bottom) :
    containerGazePoints bounds [p] = [p] := by
  simp [containerGazePoints, h1, h2, h3, h4]

/-- For a single in-bounds sample at integer relative position `(m, n)` the
accumulator is exactly that sample's splat. -/
theorem intensityMap_single (bounds : Rect) (p : HGaze) (m n : ℤ)
    (hpx : p.x = bounds.left + (m : ℝ)) (hpy : p.y = bounds.top + (n : ℝ))
    (h1 : bounds.left ≤ p.x) (h2 : p.x ≤ bounds.right)
    (h3 : bounds.top ≤ p.y) (h4 : p.y ≤ bounds.bottom) (cell : ℤ × ℤ) :
    intensityMap bounds [p] cell = splatSum ((m : ℝ), (n : ℝ)) cell := by
  unfold intensityMap
  rw [containerGazePoints_singleton bounds p h1 h2 h3 h4]
  simp only [List.map_cons, List.map_nil, List.sum_cons, List.sum_nil, add_zero]
  congr 1
  rw [hpx, hpy, Prod.mk.injEq]
  exact ⟨by ring, by ring⟩

/-- The key set of the accumulator map for a single in-bounds sample at
integer relative position `(m, n)`. -/
theorem touchedCells_single (bounds : Rect) (p : HGaze) (m n : ℤ)
    (hpx : p.x = bounds.left + (m : ℝ)) (hpy : p.y = bounds.top + (n : ℝ))
    (h1 : bounds.left ≤ p.x) (h2 : p.x ≤ bounds.right)
    (h3 : bounds.top ≤ p.y) (h4 : p.y ≤ bounds.bottom) :
    touchedCells bounds [p] =
      ((Finset.Icc (-radius) radius ×ˢ Finset.Icc (-radius) radius).filter
        (fun d =>
          Real.sqrt ((d.1 : ℝ) ^ 2 + (d.2 : ℝ) ^ 2) ≤ (radius : ℝ))).image
        (fun d => (m + d.1, n + d.2)) := by
  unfold touchedCells
  rw [containerGazePoints_singleton bounds p h1 h2 h3 h4]
  simp only [List.foldl_cons, List.foldl_nil, Finset.empty_union]
  apply Finset.image_congr
  intro d _
  dsimp only
  rw [hpx, hpy]
  have hx : bounds.left + (m : ℝ) - bounds.left + (d.1 : ℝ) = (m : ℝ) + (d.1 : ℝ) := by
    ring
  have hy : bounds.top + (n : ℝ) - bounds.top + (d.2 : ℝ) = (n : ℝ) + (d.2 : ℝ) := by
    ring
  rw [hx, hy, floor_int_add, floor_int_add]

end Heatmap

/-! ## Claim theorems -/

/-- C10: `resetReadingData` clears the per-word readings, the sequence log
and the current-word index while leaving the word bounds map and the
index-to-word map unchanged; only the full `reset` clears those too. -/
theorem C10_reset_scope (s : WordTracking.ServiceState) :
    (WordTracking.resetReadingData s).wordReadings = [] ∧
    (WordTracking.resetReadingData s).wordReadingSequence = [] ∧
    (WordTracking.resetReadingData s).lastGazedWordIndex = -1 ∧
    (WordTracking.resetReadingData s).wordBoundsMap = s.wordBoundsMap ∧
    (WordTracking.resetReadingData s).wordIndexToWord = s.wordIndexToWord ∧
    (WordTracking.reset s).wordBoundsMap = [] ∧
    (WordTracking.reset s).wordIndexToWord = [] ∧
    (WordTracking.reset s).wordReadings = [] ∧
    (WordTracking.reset s).wordReadingSequence = [] ∧
    (WordTracking.reset s).lastGazedWordIndex = -1 :=
  ⟨rfl, rfl, rfl, rfl, rfl, rfl, rfl, rfl, rfl, rfl⟩

/-- C3 counterexample: the click-driven 9-point sequence (also used by the
GazeCloud variant) ends with the right-center point (90,50), not the center;
its center sits at index 2. -/
theorem C3_counterexample :
    CalibrationUI.calibrationPointsClick.getLastD ⟨0, 0⟩ = ⟨90, 50⟩ ∧
    (⟨90, 50⟩ : CalibrationUI.CalibrationPoint) ≠ CalibrationUI.centerPoint ∧
    CalibrationUI.calibrationPointsClick.getD 2 ⟨0, 0⟩ =
      CalibrationUI.centerPoint := by
  refine ⟨by decide, by decide, by decide⟩

/-- C3 amended: the 17-point CalibrationModal sequence and the
stabilization-based 9-point sequence visit the center last, while the two
click-driven 9-point variants visit the center third and end with the
right-center point (90,50). -/
theorem C3_center_position :
    (∀ cornerOffset,
      (CalibrationUI.calibrationPoints17 cornerOffset).getLastD ⟨0, 0⟩ =
        CalibrationUI.centerPoint) ∧
    CalibrationUI.calibrationPointsStabilization.getLastD ⟨0, 0⟩ =
      CalibrationUI.centerPoint ∧
    CalibrationUI.calibrationPointsGazeCloud.getD 2 ⟨0, 0⟩ =
      CalibrationUI.centerPoint ∧
    CalibrationUI.calibrationPointsGazeCloud.getLastD ⟨0, 0⟩ = ⟨90, 50⟩ ∧
    CalibrationUI.calibrationPointsClick.getD 2 ⟨0, 0⟩ =
      CalibrationUI.centerPoint ∧
    CalibrationUI.calibrationPointsClick.getLastD ⟨0, 0⟩ = ⟨90, 50⟩ :=
  ⟨fun _ => rfl, by decide, by decide, by decide, by decide, by decide⟩

/-- C5: the session export has `totalGazePoints` equal to the number of
recorded samples and `sessionDuration` equal to last timestamp minus first
timestamp, which is zero when fewer than two samples were recorded. -/
theorem C5_export_metadata (points : List IndexPage.GazeData)
    (isCalibrated : Bool) (bounds : IndexPage.ContainerBounds) (ts : String) :
    (IndexPage.getExportData points isCalibrated bounds ts).metadata.totalGazePoints =
      points.length ∧
    (points.length < 2 →
      (IndexPage.getExportData points isCalibrated bounds ts).metadata.sessionDuration = 0) ∧
    ∀ h : points ≠ [],
      (IndexPage.getExportData points isCalibrated bounds ts).metadata.sessionDuration =
        (points.getLast h).timestamp - (points.head h).timestamp := by
  refine ⟨rfl, ?_, ?_⟩
  · intro hlt
    match points, hlt with
    | [], _ => simp [IndexPage.getExportData]
    | [a], _ => simp [IndexPage.getExportData, List.getLastD]
  · intro h
    match points, h with
    | a :: l, _ =>
      simp [IndexPage.getExportData, List.getLastD_eq_getLast?,
        List.getLast?_eq_getLast]

/-- C5 witness: samples with timestamps 1000, 1500, 4000 export a session
duration of 3000 and a gaze point total of 3. -/
theorem C5_export_metadata_witness :
    (IndexPage.getExportData [⟨0, 0, 1000⟩, ⟨0, 0, 1500⟩, ⟨0, 0, 4000⟩] true
      ⟨0, 0, 800, 600⟩ "2026-10-12").metadata.sessionDuration = 3000 ∧
    (IndexPage.getExportData [⟨0, 0, 1000⟩, ⟨0, 0, 1500⟩, ⟨0, 0, 4000⟩] true
      ⟨0, 0, 800, 600⟩ "2026-10-12").metadata.totalGazePoints = 3 := by
  have h := C5_export_metadata [⟨0, 0, 1000⟩, ⟨0, 0, 1500⟩, ⟨0, 0, 4000⟩] true
    ⟨0, 0, 800, 600⟩ "2026-10-12"
  refine ⟨?_, ?_⟩
  · rw [h.2.2 (by decide)]
    decide
  · rw [h.1]
    decide

/-- C8: when the analysis request fails, the handler stores the error
message, returns `isAnalyzing` to `false`, and leaves any previously stored
`analysisResult` unchanged. -/
theorem C8_analysis_failure (st : IndexPage.AnalysisState)
    (gazePointCount : ℕ) (message : String) (h : gazePointCount ≠ 0) :
    IndexPage.handleAnalyzeWithAI st gazePointCount (.failure message) =
      { analysisResult := st.analysisResult
        isAnalyzing := false
        analysisError := some message } := by
  simp [IndexPage.handleAnalyzeWithAI, h]

/-- C8 witness: a failing request on a session with one recorded point and a
previously stored result keeps that result and stores the message. -/
theorem C8_analysis_failure_witness :
    (1 : ℕ) ≠ 0 ∧
    IndexPage.handleAnalyzeWithAI
        ⟨some ⟨"s", "p", "a", "e", "r", "raw"⟩, true, none⟩ 1
        (.failure "Gemini API error") =
      ⟨some ⟨"s", "p", "a", "e", "r", "raw"⟩, false, some "Gemini API error"⟩ :=
  ⟨by decide,
    C8_analysis_failure ⟨some ⟨"s", "p", "a", "e", "r", "raw"⟩, true, none⟩ 1
      "Gemini API error" (by decide)⟩

/-- C9: the statistics utilities are total on empty input: `calculateMean`
and `calculateStdDev` return 0 and `averageGazeSamples` returns the origin
instead of dividing by zero. -/
theorem C9_empty_input_totality :
    CalibUtils.calculateMean [] = 0 ∧
    CalibUtils.calculateStdDev [] = 0 ∧
    (CalibUtils.averageGazeSamples []).x = 0 ∧
    (CalibUtils.averageGazeSamples []).y = 0 := by
  refine ⟨?_, ?_, ?_, ?_⟩ <;>
    simp [CalibUtils.calculateMean, CalibUtils.calculateStdDev,
      CalibUtils.averageGazeSamples]

/-- C2: evaluation of `trackGazeOnWord` at the failing input.  After gazing
at word A (index 0) and then word B (index 1) from a fresh session, the code
reports `frequency = 2` for B although B has exactly one disjoint dwell
episode in the stream: the reading is created with `frequency = 1` and the
re-entry check also fires on this very first sample because the previously
current word differs. -/
theorem C2_frequency_eval :
    (WordTracking.mapGet ("B", 1)
        ((WordTracking.trackGazeOnWord
          (WordTracking.trackGazeOnWord WordTracking.initialState
            ⟨"A", 0, 0, 10, 10, 0⟩ 0)
          ⟨"B", 20, 0, 10, 10, 1⟩ 1).wordReadings)).map
      (fun r => r.frequency) = some 2 ∧
    WordTracking.dwellEpisodes [0, 1] 1 = 1 ∧
    (2 : ℕ) ≠ 1 :=
  ⟨by decide, by decide, by decide⟩

/-- C6: `getReadingSequence` returns exactly the first occurrence of each
word index in first-occurrence order; in particular the KTH, University,
KTH gaze stream deduplicates to [KTH, University]. -/
theorem C6_reading_sequence :
    (∀ s : WordTracking.ServiceState,
      WordTracking.getReadingSequence s =
        WordTracking.firstOccurrences s.wordReadingSequence) ∧
    WordTracking.getReadingSequence
        (WordTracking.trackGazeOnWord
          (WordTracking.trackGazeOnWord
            (WordTracking.trackGazeOnWord WordTracking.initialState
              ⟨"KTH", 0, 0, 10, 10, 0⟩ 100)
            ⟨"University", 20, 0, 30, 10, 1⟩ 200)
          ⟨"KTH", 0, 0, 10, 10, 0⟩ 300) =
      [⟨"KTH", 0, 100⟩, ⟨"University", 1, 200⟩] := by
  constructor
  · intro s
    have h := WordTracking.filterSeen_eq_firstOccurrences s.wordReadingSequence []
    simpa [WordTracking.getReadingSequence, List.not_mem_nil] using h
  · decide

/-- C4: a calibration point with at least one sample gets as error the
Euclidean distance between its pixel-resolved target
`(w·x/100, h·y/100)` and the coordinate-wise mean of its samples, and the
overall quality is `good` iff `meanError < 50`, `acceptable` iff
`50 ≤ meanError < 100`, and `poor` iff `100 ≤ meanError`. -/
theorem C4_point_error_and_quality (pts : List CalibUtils.CalibrationPoint)
    (gs : List (List CalibUtils.GazeSample)) (w h : ℝ) (i : ℕ)
    (hi : i < pts.length) (hne : ¬(gs.getD i []).length = 0) :
    (CalibUtils.calculateCalibrationMetrics pts gs w h).pointErrors.getD i (0, ⊥) =
      (i,
        ((Real.sqrt
          ((CalibUtils.calculateMean ((gs.getD i []).map (fun s => s.x)) -
              w * (pts.getD i default).x / 100) ^ 2 +
            (CalibUtils.calculateMean ((gs.getD i []).map (fun s => s.y)) -
              h * (pts.getD i default).y / 100) ^ 2) : ℝ) : EReal)) ∧
    ((CalibUtils.calculateCalibrationMetrics pts gs w h).quality = .good ↔
      (CalibUtils.calculateCalibrationMetrics pts gs w h).meanError < 50) ∧
    ((CalibUtils.calculateCalibrationMetrics pts gs w h).quality = .acceptable ↔
      50 ≤ (CalibUtils.calculateCalibrationMetrics pts gs w h).meanError ∧
        (CalibUtils.calculateCalibrationMetrics pts gs w h).meanError < 100) ∧
    ((CalibUtils.calculateCalibrationMetrics pts gs w h).quality = .poor ↔
      100 ≤ (CalibUtils.calculateCalibrationMetrics pts gs w h).meanError) := by
  refine ⟨?_, ?_, ?_, ?_⟩
  · rw [CalibUtils.pointErrors_getD pts gs w h i hi]
    simp only [CalibUtils.pointErrorEntry]
    rw [if_neg hne]
    simp only [CalibUtils.calculateDistance, CalibUtils.targetOf, CalibUtils.avgOf]
  · rw [CalibUtils.quality_eq_determine]
    exact CalibUtils.determineQuality_good_iff _
  · rw [CalibUtils.quality_eq_determine]
    exact CalibUtils.determineQuality_acceptable_iff _
  · rw [CalibUtils.quality_eq_determine]
    exact CalibUtils.determineQuality_poor_iff _

/-- C4 witness: one point at percent (100,100) on a 100×100 screen (pixel
target (100,100)) with a single sample at (130,100) gets error 30 and the
run is classified good. -/
theorem C4_point_error_and_quality_witness :
    ((CalibUtils.calculateCalibrationMetrics [⟨100, 100⟩] [[⟨130, 100, 0⟩]]
        100 100).pointErrors.getD 0 (0, ⊥) = (0, ((30 : ℝ) : EReal))) ∧
    (CalibUtils.calculateCalibrationMetrics [⟨100, 100⟩] [[⟨130, 100, 0⟩]]
        100 100).quality = CalibUtils.Quality.good := by
  have hth := C4_point_error_and_quality [⟨100, 100⟩] [[⟨130, 100, 0⟩]] 100 100 0
    (by norm_num) (by simp [List.getD])
  have h900 : Real.sqrt 900 = 30 := by
    rw [show (900 : ℝ) = 30 ^ 2 by norm_num]
    exact Real.sqrt_sq (by norm_num)
  have henum : ([⟨100, 100⟩] : List CalibUtils.CalibrationPoint).enum =
      [(0, ⟨100, 100⟩)] := rfl
  have hf : CalibUtils.finiteErrorOf [[⟨130, 100, 0⟩]] 100 100 (0, ⟨100, 100⟩) =
      some (Real.sqrt 900) := by
    simp only [CalibUtils.finiteErrorOf, List.getD]
    norm_num [CalibUtils.calculateDistance, CalibUtils.targetOf,
      CalibUtils.avgOf, CalibUtils.calculateMean]
  have hmean : (CalibUtils.calculateCalibrationMetrics [⟨100, 100⟩]
      [[⟨130, 100, 0⟩]] 100 100).meanError = 30 := by
    rw [CalibUtils.meanError_eq, henum, List.filterMap_cons, hf]
    simp only [List.filterMap_nil]
    rw [CalibUtils.calculateMean_singleton, h900]
  constructor
  · rw [hth.1]
    have harg : (CalibUtils.calculateMean
          (List.map (fun s => s.x)
            (([[⟨130, 100, 0⟩]] : List (List CalibUtils.GazeSample)).getD 0 [])) -
          100 * (([⟨100, 100⟩] : List CalibUtils.CalibrationPoint).getD 0 default).x / 100) ^ 2 +
        (CalibUtils.calculateMean
          (List.map (fun s => s.y)
            (([[⟨130, 100, 0⟩]] : List (List CalibUtils.GazeSample)).getD 0 [])) -
          100 * (([⟨100, 100⟩] : List CalibUtils.CalibrationPoint).getD 0 default).y / 100) ^ 2 =
        900 := by
      norm_num [List.getD, CalibUtils.calculateMean]
    rw [harg, h900]
  · exact hth.2.1.mpr (by rw [hmean]; norm_num)

/-- C1 amended: a calibration point with zero collected samples is recorded
with infinite error in `pointErrors`, but it is excluded from the aggregate:
`quality` is `determineQuality` of the mean over only the points that do
have samples, so a run with a zero-sample point can still be classified
`good`. -/
theorem C1_zero_sample_point (pts : List CalibUtils.CalibrationPoint)
    (gs : List (List CalibUtils.GazeSample)) (w h : ℝ) (i : ℕ)
    (hi : i < pts.length) (hempty : (gs.getD i []).length = 0) :
    (CalibUtils.calculateCalibrationMetrics pts gs w h).pointErrors.getD i (0, ⊥) =
      (i, (⊤ : EReal)) ∧
    (CalibUtils.calculateCalibrationMetrics pts gs w h).quality =
      CalibUtils.determineQuality
        (CalibUtils.calculateMean
          (pts.enum.filterMap (CalibUtils.finiteErrorOf gs w h))) := by
  refine ⟨?_, CalibUtils.quality_eq pts gs w h⟩
  rw [CalibUtils.pointErrors_getD pts gs w h i hi]
  simp only [CalibUtils.pointErrorEntry]
  rw [if_pos hempty]

/-- C1 counterexample: with two calibration points of which the first
collected no samples and the second was hit exactly, the code records
infinite error for the first point yet classifies the run `good`, not
`poor` as the claim requires. -/
theorem C1_counterexample :
    (CalibUtils.calculateCalibrationMetrics [⟨0, 0⟩, ⟨0, 0⟩] [[], [⟨0, 0, 0⟩]]
        100 100).pointErrors.getD 0 (0, ⊥) = (0, (⊤ : EReal)) ∧
    (CalibUtils.calculateCalibrationMetrics [⟨0, 0⟩, ⟨0, 0⟩] [[], [⟨0, 0, 0⟩]]
        100 100).quality = CalibUtils.Quality.good ∧
    CalibUtils.Quality.good ≠ CalibUtils.Quality.poor := by
  refine ⟨?_, ?_, by decide⟩
  · rw [CalibUtils.pointErrors_getD _ _ _ _ 0 (by norm_num)]
    simp [CalibUtils.pointErrorEntry, List.getD]
  · rw [CalibUtils.quality_eq]
    have henum : ([⟨0, 0⟩, ⟨0, 0⟩] : List CalibUtils.CalibrationPoint).enum =
        [(0, ⟨0, 0⟩), (1, ⟨0, 0⟩)] := rfl
    have hf0 : CalibUtils.finiteErrorOf [[], [⟨0, 0, 0⟩]] 100 100 (0, ⟨0, 0⟩) =
        none := by
      simp [CalibUtils.finiteErrorOf, List.getD]
    have hf1 : CalibUtils.finiteErrorOf [[], [⟨0, 0, 0⟩]] 100 100 (1, ⟨0, 0⟩) =
        some 0 := by
      simp only [CalibUtils.finiteErrorOf, List.getD]
      norm_num [CalibUtils.calculateDistance, CalibUtils.targetOf,
        CalibUtils.avgOf, CalibUtils.calculateMean, Real.sqrt_zero]
    rw [henum, List.filterMap_cons, hf0, List.filterMap_cons, hf1]
    simp only [List.filterMap_nil]
    rw [CalibUtils.calculateMean_singleton]
    norm_num [CalibUtils.determineQuality]

/-- C1 witness: the amended statement applied to a concrete two-point run
whose first point has no samples. -/
theorem C1_zero_sample_point_witness :
    (CalibUtils.calculateCalibrationMetrics [⟨0, 0⟩, ⟨50, 50⟩]
        [[], [⟨50, 50, 0⟩]] 100 100).pointErrors.getD 0 (0, ⊥) =
      (0, (⊤ : EReal)) ∧
    (CalibUtils.calculateCalibrationMetrics [⟨0, 0⟩, ⟨50, 50⟩]
        [[], [⟨50, 50, 0⟩]] 100 100).quality =
      CalibUtils.determineQuality
        (CalibUtils.calculateMean
          (([⟨0, 0⟩, ⟨50, 50⟩] : List CalibUtils.CalibrationPoint).enum.filterMap
            (CalibUtils.finiteErrorOf [[], [⟨50, 50, 0⟩]] 100 100))) :=
  C1_zero_sample_point [⟨0, 0⟩, ⟨50, 50⟩] [[], [⟨50, 50, 0⟩]] 100 100 0
    (by norm_num) (by simp [List.getD])

set_option maxRecDepth 4000 in
/-- C7: for a heatmap built from a single in-bounds sample at integer
relative position `(m, n)`, every accumulator cell at offset `(dx, dy)` with
distance `d ≤ 60` from the sample receives intensity `1 - d/60`, the cell at
the sample's exact center has normalized intensity 1 after dividing by the
global maximum, and a cell at distance `≥ 60` has intensity 0. -/
theorem C7_heatmap_single_sample (bounds : Heatmap.Rect) (p : Heatmap.HGaze)
    (m n : ℤ)
    (hpx : p.x = bounds.left + (m : ℝ)) (hpy : p.y = bounds.top + (n : ℝ))
    (h1 : bounds.left ≤ p.x) (h2 : p.x ≤ bounds.right)
    (h3 : bounds.top ≤ p.y) (h4 : p.y ≤ bounds.bottom) :
    (∀ dx dy : ℤ, Real.sqrt ((dx : ℝ) ^ 2 + (dy : ℝ) ^ 2) ≤ 60 →
      Heatmap.intensityMap bounds [p] (m + dx, n + dy) =
        1 - Real.sqrt ((dx : ℝ) ^ 2 + (dy : ℝ) ^ 2) / 60) ∧
    Heatmap.normalizedIntensity bounds [p] (m, n) = 1 ∧
    (∀ dx dy : ℤ, 60 ≤ Real.sqrt ((dx : ℝ) ^ 2 + (dy : ℝ) ^ 2) →
      Heatmap.intensityMap bounds [p] (m + dx, n + dy) = 0) := by
  have hr : ((Heatmap.radius : ℤ) : ℝ) = 60 := by norm_num [Heatmap.radius]
  have key : ∀ dx dy : ℤ,
      Heatmap.intensityMap bounds [p] (m + dx, n + dy) =
        if Real.sqrt ((dx : ℝ) ^ 2 + (dy : ℝ) ^ 2) ≤ (Heatmap.radius : ℝ) ∧
            dx ∈ Finset.Icc (-Heatmap.radius) Heatmap.radius ∧
            dy ∈ Finset.Icc (-Heatmap.radius) Heatmap.radius then
          1 - Real.sqrt ((dx : ℝ) ^ 2 + (dy : ℝ) ^ 2) / (Heatmap.radius : ℝ)
        else 0 := by
    intro dx dy
    rw [Heatmap.intensityMap_single bounds p m n hpx hpy h1 h2 h3 h4 (m + dx, n + dy),
      Heatmap.splatSum_intCast]
    simp only [add_sub_cancel_left]
  have parta : ∀ dx dy : ℤ, Real.sqrt ((dx : ℝ) ^ 2 + (dy : ℝ) ^ 2) ≤ 60 →
      Heatmap.intensityMap bounds [p] (m + dx, n + dy) =
        1 - Real.sqrt ((dx : ℝ) ^ 2 + (dy : ℝ) ^ 2) / 60 := by
    intro dx dy hle
    have hle2 : Real.sqrt ((dx : ℝ) ^ 2 + (dy : ℝ) ^ 2) ≤ ((Heatmap.radius : ℤ) : ℝ) := by
      rw [hr]; exact hle
    obtain ⟨hmx, hmy⟩ := Heatmap.mem_of_sqrt_le dx dy hle2
    rw [key dx dy, if_pos ⟨hle2, hmx, hmy⟩, hr]
  have hcenter : Heatmap.intensityMap bounds [p] (m, n) = 1 := by
    have key00 := parta 0 0 (by norm_num)
    rw [show m + 0 = m by ring, show n + 0 = n by ring] at key00
    rw [key00]
    norm_num
  refine ⟨parta, ?_, ?_⟩
  · have hmax : Heatmap.maxIntensity bounds [p] = 1 := by
      unfold Heatmap.maxIntensity
      rw [Heatmap.touchedCells_single bounds p m n hpx hpy h1 h2 h3 h4]
      apply le_antisymm
      · rw [Finset.fold_max_le]
        refine ⟨by norm_num, ?_⟩
        intro c hc
        obtain ⟨d, hd, hcd⟩ := Finset.mem_image.mp hc
        obtain ⟨hd1, hd2⟩ := Finset.mem_filter.mp hd
        rw [← hcd]
        rw [key d.1 d.2]
        split_ifs with hcond
        · have hnn := Real.sqrt_nonneg ((d.1 : ℝ) ^ 2 + (d.2 : ℝ) ^ 2)
          have hrpos : (0 : ℝ) < ((Heatmap.radius : ℤ) : ℝ) := by
            norm_num [Heatmap.radius]
          have := div_nonneg hnn hrpos.le
          linarith
        · norm_num
      · rw [Finset.le_fold_max]
        right
        refine ⟨(m, n), ?_, ?_⟩
        · rw [Finset.mem_image]
          refine ⟨(0, 0), ?_, ?_⟩
          · rw [Finset.mem_filter]
            refine ⟨by simp [Finset.mem_product, Finset.mem_Icc, Heatmap.radius], ?_⟩
            norm_num [Heatmap.radius]
          · simp
        · rw [hcenter]
    unfold Heatmap.normalizedIntensity
    rw [hcenter, hmax]
    norm_num
  · intro dx dy hge
    rw [key dx dy]
    by_cases hcond : Real.sqrt ((dx : ℝ) ^ 2 + (dy : ℝ) ^ 2) ≤ ((Heatmap.radius : ℤ) : ℝ) ∧
        dx ∈ Finset.Icc (-Heatmap.radius) Heatmap.radius ∧
        dy ∈ Finset.Icc (-Heatmap.radius) Heatmap.radius
    · have heq : Real.sqrt ((dx : ℝ) ^ 2 + (dy : ℝ) ^ 2) = 60 := by
        have hle3 := hcond.1
        rw [hr] at hle3
        linarith
      rw [if_pos hcond, heq, hr]
      norm_num
    · rw [if_neg hcond]

/-- C7 witness: a single sample at relative position (100, 100) of a
200×200 container.  The cell at offset (3, 4) (distance 5) receives
intensity `1 - 5/60`, the center cell normalizes to 1, and the cell at
offset (60, 0) (distance exactly 60) holds intensity 0. -/
theorem C7_heatmap_single_sample_witness :
    Heatmap.intensityMap ⟨0, 0, 200, 200⟩ [⟨100, 100, 0⟩] (103, 104) =
      1 - 5 / 60 ∧
    Heatmap.normalizedIntensity ⟨0, 0, 200, 200⟩ [⟨100, 100, 0⟩] (100, 100) = 1 ∧
    Heatmap.intensityMap ⟨0, 0, 200, 200⟩ [⟨100, 100, 0⟩] (160, 100) = 0 := by
  have h := C7_heatmap_single_sample ⟨0, 0, 200, 200⟩ ⟨100, 100, 0⟩ 100 100
    (by norm_num) (by norm_num) (by norm_num) (by norm_num) (by norm_num)
    (by norm_num)
  have hs5 : Real.sqrt (((3 : ℤ) : ℝ) ^ 2 + ((4 : ℤ) : ℝ) ^ 2) = 5 := by
    push_cast
    rw [show (3 : ℝ) ^ 2 + (4 : ℝ) ^ 2 = 5 ^ 2 by norm_num]
    exact Real.sqrt_sq (by norm_num)
  have hs60 : Real.sqrt (((60 : ℤ) : ℝ) ^ 2 + ((0 : ℤ) : ℝ) ^ 2) = 60 := by
    push_cast
    rw [show (60 : ℝ) ^ 2 + (0 : ℝ) ^ 2 = 60 ^ 2 by norm_num]
    exact Real.sqrt_sq (by norm_num)
  refine ⟨?_, h.2.1, ?_⟩
  · have ha := h.1 3 4 (by rw [hs5]; norm_num)
    have hcell : ((100 : ℤ) + 3, (100 : ℤ) + 4) = ((103 : ℤ), (104 : ℤ)) := by
      norm_num
    rw [hcell] at ha
    rw [ha, hs5]
  · have hc := h.2.2 60 0 (by rw [hs60])
    have hcell : ((100 : ℤ) + 60, (100 : ℤ) + 0) = ((160 : ℤ), (100 : ℤ)) := by
      norm_num
    rw [hcell] at hc
    exact hc

end GazeScribe
